import Mathlib

/-!
Shallow embedding of the asynchronous image-analysis pipeline of
`blog/views.py` and `blog/models.py`: the submission endpoint
(`process_image`), the worker task (`process_image_task`), the status
endpoint (`check_job_status`), the cache helper (`get_model_prediction`),
and the `ImageAnalysis` store.

External collaborators (PIL image decoding and the `ModelHandler`
inference engine) are kept abstract: decoding is a function from raw
bytes to an optional decoded image, and each `ModelHandler` generation
operation is a function that either returns text or raises (an
`Except String` value).  The RQ queue is modelled by an explicit job
list with the worker-loop semantics of the library (a queued job is
executed once; its result is stored; a raised exception would mark it
failed).
-/

namespace FYP

/-- An uploaded file as received by the endpoint: a filename and raw bytes. -/
structure UploadedFile where
  name : String
  content : List Nat
  deriving DecidableEq

/-- A decoded image (the result of `Image.open(...).convert("RGB")`):
its pixel bytes, as `image.tobytes()` would return them. -/
structure PImage where
  pixels : List Nat
  deriving DecidableEq

/-- The `ModelHandler` singleton's generation operations
(`blog/model_handler.py`, consumed abstractly through its call sites in
`views.py`).  Each call may raise, modelled as `Except`: `.error msg` is
an exception carrying `msg`.  `process_query_default` is
`process_query(image)` called with no query argument, as the worker task
does. -/
structure ModelHandler where
  generate_short_caption : PImage → Except String String
  generate_normal_caption : PImage → Except String String
  process_query_default : PImage → Except String String

/-- A row of `blog/models.py` `ImageAnalysis`. -/
structure Analysis where
  id : Nat
  image : UploadedFile
  short_caption : String
  normal_caption : String
  query_text : Option String
  query_result : Option String
  deriving DecidableEq

/-- The analysis store: `ImageAnalysis.objects`.  `nextId` is the next
auto-increment primary key; `create` prepends the new row. -/
structure DB where
  nextId : Nat
  records : List Analysis
  deriving DecidableEq

/-- RQ job state: `queued`, `finished result` (the task returned
`result`), or `failed exc_info` (the task raised; `exc_info` is the
retained traceback text). -/
inductive JobState
  | queued
  | finished (result : Option Nat)
  | failed (exc_info : String)
  deriving DecidableEq

/-- An RQ job as enqueued by `process_image`: `queue.enqueue(
process_image_task, image_file, job_timeout=600)`.  Only the image file
is passed to the task. -/
structure Job where
  id : Nat
  file : UploadedFile
  timeout : Nat
  state : JobState
  deriving DecidableEq

/-- The RQ default queue. -/
structure Queue where
  nextJobId : Nat
  jobs : List Job
  deriving DecidableEq

/-- A JSON value as used in the endpoints' `JsonResponse` payloads. -/
inductive Json
  | str (s : String)
  | num (n : Nat)
  | null
  deriving DecidableEq

/-- A `JsonResponse`: HTTP status code and JSON object body. -/
structure HttpResponse where
  status_code : Nat
  body : List (String × Json)
  deriving DecidableEq

/-- The parts of a Django request the pipeline reads: `request.FILES`
and `request.POST`. -/
structure HttpRequest where
  files : List (String × UploadedFile)
  post : List (String × String)

/-- Key lookup in a JSON object / form dictionary (leftmost binding wins,
as in a Python dict with unique keys). -/
def flookup {α : Type} (key : String) : List (String × α) → Option α
  | [] => none
  | (k, v) :: rest => if k = key then some v else flookup key rest

/-- Option String rendered into a JSON field (Django serializes a null
`TextField` as JSON null). -/
def json_of_opt : Option String → Json
  | none => Json.null
  | some s => Json.str s

/-- The URL of a stored upload: `analysis.image.url` for
`ImageField(upload_to=...)`. -/
def image_url (f : UploadedFile) : String :=
  "/media/uploads/" ++ f.name

/-- The worker task `process_image_task(image_file)` of `views.py`.
It opens the image, calls the three `ModelHandler` generation
operations, and creates one `ImageAnalysis` row; its whole body is
wrapped in `try/except Exception`, which returns `None` on any failure.
Returns the task's return value, the updated store, and the number of
`ModelHandler` generation calls made. -/
def process_image_task (decode : List Nat → Option PImage) (mh : ModelHandler)
    (image_file : UploadedFile) (db : DB) : Option Nat × DB × Nat :=
  match decode image_file.content with
  | none => (none, db, 0)
  | some image =>
    match mh.generate_short_caption image with
    | Except.error _ => (none, db, 1)
    | Except.ok short_caption =>
      match mh.generate_normal_caption image with
      | Except.error _ => (none, db, 2)
      | Except.ok normal_caption =>
        match mh.process_query_default image with
        | Except.error _ => (none, db, 3)
        | Except.ok query_result =>
          let analysis : Analysis :=
            { id := db.nextId, image := image_file,
              short_caption := short_caption,
              normal_caption := normal_caption,
              query_text := none,
              query_result := some query_result }
          (some analysis.id,
           { nextId := db.nextId + 1, records := analysis :: db.records }, 3)

/-- The `query_text = request.POST.get('query_text', '')` line of the
submission endpoint. -/
def submitted_query (req : HttpRequest) : String :=
  (flookup "query_text" req.post).getD ""

/-- The submission endpoint `process_image(request)` of `views.py`:
400 if no file under the `image` key, otherwise enqueue
`process_image_task` with the image file only (`job_timeout=600`) and
answer `{job_id, status: "processing", message}`.  Returns the response,
the updated queue, and the number of `ModelHandler` calls made on the
request path. -/
def process_image (req : HttpRequest) (q : Queue) : HttpResponse × Queue × Nat :=
  match flookup "image" req.files with
  | none =>
    ({ status_code := 400, body := [("error", Json.str "No image file provided")] }, q, 0)
  | some image_file =>
    let query_text := submitted_query req
    let job : Job :=
      { id := q.nextJobId, file := image_file, timeout := 600, state := JobState.queued }
    ({ status_code := 200,
       body := [("job_id", Json.num job.id),
                ("status", Json.str "processing"),
                ("message", Json.str "Image uploaded and processing started")] },
     { nextJobId := q.nextJobId + 1, jobs := job :: q.jobs }, 0)

/-- `queue.fetch_job(job_id)`. -/
def find_job (q : Queue) (job_id : Nat) : Option Job :=
  q.jobs.find? (fun j => j.id == job_id)

/-- `ImageAnalysis.objects.get(id=...)`, `none` when `DoesNotExist`. -/
def find_analysis (db : DB) (analysis_id : Nat) : Option Analysis :=
  db.records.find? (fun a => a.id == analysis_id)

/-- Store a new state for the job with the given id. -/
def set_job_state (q : Queue) (job_id : Nat) (s : JobState) : Queue :=
  { q with
    jobs := q.jobs.map (fun j => if j.id == job_id then { j with state := s } else j) }

/-- One step of the RQ worker loop on a given job: a queued job is
executed by calling `process_image_task` on its file and recording the
returned value as the finished job result; a job that is not queued is
not re-run.  Returns the queue, the store, and the number of
`ModelHandler` calls made. -/
def run_job (decode : List Nat → Option PImage) (mh : ModelHandler)
    (q : Queue) (db : DB) (job_id : Nat) : Queue × DB × Nat :=
  match find_job q job_id with
  | none => (q, db, 0)
  | some job =>
    match job.state with
    | JobState.queued =>
      let r := process_image_task decode mh job.file db
      (set_job_state q job_id (JobState.finished r.1), r.2.1, r.2.2)
    | _ => (q, db, 0)

/-- The status endpoint `check_job_status(request, job_id)` of
`views.py`, branch for branch: unknown job → 404; `job.is_failed` →
`str(job.exc_info)`; `job.is_finished` with `None` result →
"Processing failed"; finished with an id whose record is missing →
"Analysis not found"; finished with an existing record → the completed
payload; otherwise still processing. -/
def check_job_status (q : Queue) (db : DB) (job_id : Nat) : HttpResponse :=
  match find_job q job_id with
  | none =>
    { status_code := 404,
      body := [("status", Json.str "failed"), ("error", Json.str "Job not found")] }
  | some job =>
    match job.state with
    | JobState.failed exc_info =>
      { status_code := 200,
        body := [("status", Json.str "failed"), ("error", Json.str exc_info)] }
    | JobState.finished result =>
      match result with
      | none =>
        { status_code := 200,
          body := [("status", Json.str "failed"), ("error", Json.str "Processing failed")] }
      | some analysis_id =>
        match find_analysis db analysis_id with
        | none =>
          { status_code := 200,
            body := [("status", Json.str "failed"), ("error", Json.str "Analysis not found")] }
        | some analysis =>
          { status_code := 200,
            body := [("status", Json.str "completed"),
                     ("image_url", Json.str (image_url analysis.image)),
                     ("short_caption", Json.str analysis.short_caption),
                     ("normal_caption", Json.str analysis.normal_caption),
                     ("query_result", json_of_opt analysis.query_result)] }
    | JobState.queued =>
      { status_code := 200,
        body := [("status", Json.str "processing"),
                 ("message", Json.str "Image is still being processed")] }

/-- A cache entry list: key, value, expiry time.  `cache.get` treats an
expired entry as absent. -/
def cache_get (c : List (String × String × Nat)) (now : Nat) (key : String) : Option String :=
  match c.find? (fun e => e.1 == key) with
  | none => none
  | some (_, v, expiry) => if now < expiry then some v else none

/-- `cache.set(key, value, timeout=3600)`: insert or overwrite with
expiry one hour from now. -/
def cache_set (c : List (String × String × Nat)) (now : Nat) (key : String)
    (v : String) : List (String × String × Nat) :=
  (key, v, now + 3600) :: c.filter (fun e => !(e.1 == key))

/-- The cache key of `get_model_prediction`:
`f"image_analysis_{hash(image.tobytes())}"`.  `hashFn` is the running
process's Python `hash` on bytes (randomized per process by
`PYTHONHASHSEED`); the key is computed from the decoded pixel bytes. -/
def py_cache_key (hashFn : List Nat → Nat) (image : PImage) : String :=
  "image_analysis_" ++ toString (hashFn image.pixels)

/-- The cache helper `get_model_prediction(image)` of `views.py`: look
the key up, on a miss call `process_query` and store the result for an
hour.  It has no `try/except`, so an engine exception propagates.
Returns the outcome, the updated cache, and the number of `ModelHandler`
calls made. -/
def get_model_prediction (hashFn : List Nat → Nat) (mh : ModelHandler)
    (c : List (String × String × Nat)) (now : Nat) (image : PImage) :
    Except String String × List (String × String × Nat) × Nat :=
  let cache_key := py_cache_key hashFn image
  match cache_get c now cache_key with
  | some result => (Except.ok result, c, 0)
  | none =>
    match mh.process_query_default image with
    | Except.error e => (Except.error e, c, 1)
    | Except.ok result => (Except.ok result, cache_set c now cache_key result, 1)

/-- The `analysis_delete` view: delete the record with the given pk. -/
def analysis_delete (db : DB) (pk : Nat) : DB :=
  { db with records := db.records.filter (fun a => !(a.id == pk)) }

/-! Concrete instances of the abstract collaborators, used to evaluate
the pipeline at specific inputs: a decoder that accepts any nonempty
byte string, a handler that always answers, and a handler whose first
generation call raises. -/

/-- A concrete decoder: empty content is not an image, anything else
decodes to its own bytes as pixels. -/
def cDecode : List Nat → Option PImage :=
  fun bytes => if bytes = [] then none else some { pixels := bytes }

/-- A concrete handler that answers every call. -/
def cMh : ModelHandler :=
  { generate_short_caption := fun _ => Except.ok "a cat",
    generate_normal_caption := fun _ => Except.ok "a cat sitting on a mat",
    process_query_default := fun _ => Except.ok "a domestic cat" }

/-- A concrete handler whose short-caption call raises. -/
def cMhRaising : ModelHandler :=
  { generate_short_caption := fun _ => Except.error "RuntimeError: CUDA out of memory",
    generate_normal_caption := fun _ => Except.ok "a cat sitting on a mat",
    process_query_default := fun _ => Except.ok "a domestic cat" }

/-- A concrete handler whose query call raises while both caption calls
succeed. -/
def cMhQueryRaising : ModelHandler :=
  { generate_short_caption := fun _ => Except.ok "a cat",
    generate_normal_caption := fun _ => Except.ok "a cat sitting on a mat",
    process_query_default := fun _ => Except.error "RuntimeError: CUDA out of memory" }

/-- A concrete image upload. -/
def cFile : UploadedFile := { name := "photo.jpg", content := [1, 2, 3] }

/-- A concrete non-image upload (its content does not decode). -/
def cTextFile : UploadedFile := { name := "notes.txt", content := [] }

/-- The empty queue. -/
def q0 : Queue := { nextJobId := 0, jobs := [] }

/-- The empty analysis store. -/
def db0 : DB := { nextId := 0, records := [] }

/-- A request uploading `cFile` with no query text. -/
def reqImage : HttpRequest := { files := [("image", cFile)], post := [] }

/-- The same upload with query text attached. -/
def reqImageQuery : HttpRequest :=
  { files := [("image", cFile)], post := [("query_text", "What color is the object?")] }

/-- A request uploading the non-image file. -/
def reqText : HttpRequest := { files := [("image", cTextFile)], post := [] }

/-- A request with no file at all. -/
def reqEmpty : HttpRequest := { files := [], post := [] }

/-- A queue whose job 0 is queued with `cFile`. -/
def qQueued : Queue :=
  { nextJobId := 1,
    jobs := [{ id := 0, file := cFile, timeout := 600, state := JobState.queued }] }

/-- A queue whose job 0 finished with a null result (its task body failed). -/
def qFinNone : Queue :=
  { nextJobId := 1,
    jobs := [{ id := 0, file := cFile, timeout := 600, state := JobState.finished none }] }

/-- A queue whose job 1 finished pointing at analysis id 5, absent from `db0`. -/
def qFin : Queue :=
  { nextJobId := 2,
    jobs := [{ id := 1, file := cFile, timeout := 600,
               state := JobState.finished (some 5) }] }

/-- A queue whose job 7 was marked failed by the queue infrastructure,
with the retained traceback text as `exc_info`. -/
def qFail : Queue :=
  { nextJobId := 8,
    jobs := [{ id := 7, file := cFile, timeout := 600,
               state := JobState.failed
                 "Traceback (most recent call last): RuntimeError: CUDA out of memory" }] }

/-- A stored analysis row. -/
def cAnalysis : Analysis :=
  { id := 0, image := cFile, short_caption := "a cat",
    normal_caption := "a cat sitting on a mat", query_text := none,
    query_result := some "a domestic cat" }

/-- A store holding `cAnalysis`. -/
def dbDone : DB := { nextId := 1, records := [cAnalysis] }

/-- A queue whose job 3 finished pointing at `cAnalysis`. -/
def qDone : Queue :=
  { nextJobId := 4,
    jobs := [{ id := 3, file := cFile, timeout := 600,
               state := JobState.finished (some 0) }] }

/-! Helper lemmas shared by the claim theorems. -/

/-- Updating a job's state commutes with fetching it: the fetched job
comes back with the new state. -/
theorem find_map_update (l : List Job) (job_id : Nat) (s : JobState) (job : Job)
    (h : l.find? (fun j => j.id == job_id) = some job) :
    (l.map (fun j => if j.id == job_id then { j with state := s } else j)).find?
      (fun j => j.id == job_id) = some { job with state := s } := by
  induction l with
  | nil => simp [List.find?] at h
  | cons hd tl ih =>
    cases hid : hd.id == job_id with
    | true =>
      simp only [List.find?, hid] at h
      cases h
      simp [List.find?, hid]
    | false =>
      simp only [List.find?, hid] at h
      have hne : ¬ ((hd.id == job_id) = true) := by simp [hid]
      simp only [List.map_cons]
      rw [if_neg hne]
      simp only [List.find?, hid]
      exact ih h

/-- `fetch_job` after `set_job_state` on the same id returns the job
with the new state. -/
theorem find_job_set_state (q : Queue) (job_id : Nat) (s : JobState) (job : Job)
    (h : find_job q job_id = some job) :
    find_job (set_job_state q job_id s) job_id = some { job with state := s } := by
  unfold find_job set_job_state
  exact find_map_update q.jobs job_id s job h

/-- Evaluation of the worker task when decoding and all three
generation calls succeed: one new record, return value its id, three
`ModelHandler` calls. -/
theorem process_image_task_success (decode : List Nat → Option PImage)
    (mh : ModelHandler) (file : UploadedFile) (db : DB) (img : PImage)
    (sc nc qr : String)
    (hdec : decode file.content = some img)
    (hsc : mh.generate_short_caption img = Except.ok sc)
    (hnc : mh.generate_normal_caption img = Except.ok nc)
    (hqr : mh.process_query_default img = Except.ok qr) :
    process_image_task decode mh file db =
      (some db.nextId,
       { nextId := db.nextId + 1,
         records := { id := db.nextId, image := file, short_caption := sc,
                      normal_caption := nc, query_text := none,
                      query_result := some qr } :: db.records }, 3) := by
  simp [process_image_task, hdec, hsc, hnc, hqr]

/-- The worker task either fails — returning `none` and leaving the
store untouched — or succeeds, appending exactly one record whose id it
returns after three generation calls. -/
theorem process_image_task_spec (decode : List Nat → Option PImage)
    (mh : ModelHandler) (file : UploadedFile) (db : DB) :
    ((process_image_task decode mh file db).1 = none ∧
      (process_image_task decode mh file db).2.1 = db) ∨
    ∃ sc nc qr : String,
      process_image_task decode mh file db =
        (some db.nextId,
         { nextId := db.nextId + 1,
           records := { id := db.nextId, image := file, short_caption := sc,
                        normal_caption := nc, query_text := none,
                        query_result := some qr } :: db.records }, 3) := by
  cases hdec : decode file.content with
  | none => left; constructor <;> simp [process_image_task, hdec]
  | some img =>
    cases hsc : mh.generate_short_caption img with
    | error e => left; constructor <;> simp [process_image_task, hdec, hsc]
    | ok sc =>
      cases hnc : mh.generate_normal_caption img with
      | error e => left; constructor <;> simp [process_image_task, hdec, hsc, hnc]
      | ok nc =>
        cases hqr : mh.process_query_default img with
        | error e => left; constructor <;> simp [process_image_task, hdec, hsc, hnc, hqr]
        | ok qr =>
          right
          exact ⟨sc, nc, qr,
            process_image_task_success decode mh file db img sc nc qr hdec hsc hnc hqr⟩

/-! The claims. -/

/-- Claim C1 (code bug): the submitted query text is supposed to be
carried through the pipeline, but the submission endpoint reads it and
then enqueues the task with the image file only.  At the failing input —
an upload of `cFile` with query text "What color is the object?" — the
submission behaves identically to one with no query text at all, and the
record the worker then creates has a null `query_text` and a
`query_result` answering the handler's default question, not the
submitted one. -/
theorem query_text_dropped_on_enqueue :
    submitted_query reqImageQuery = "What color is the object?" ∧
    submitted_query reqImage = "" ∧
    process_image reqImageQuery q0 = process_image reqImage q0 ∧
    find_analysis (run_job cDecode cMh (process_image reqImageQuery q0).2.1 db0 0).2.1 0 =
      some { id := 0, image := cFile, short_caption := "a cat",
             normal_caption := "a cat sitting on a mat", query_text := none,
             query_result := some "a domestic cat" } := by
  refine ⟨rfl, rfl, rfl, ?_⟩
  decide

/-- Claim C2, counterexample: resubmitting the same image right after a
first successful run makes the worker invoke the Model Handle three more
times, not zero — the worker task never consults the Prediction Cache. -/
theorem second_submission_calls_model_cex :
    (process_image_task cDecode cMh cFile
        (process_image_task cDecode cMh cFile db0).2.1).2.2 = 3 ∧ (3 : Nat) ≠ 0 := by
  decide

/-- Claim C2, amended: for two submissions of the same image file within
any window, the second run of the worker task invokes the Model Handle
three additional times (once per generation operation, the same as the
first run — the task does not consult the Prediction Cache), and with
the same handler it produces a record with the same short caption,
normal caption and query output as the first. -/
theorem second_submission_reinvokes_model (decode : List Nat → Option PImage)
    (mh : ModelHandler) (file : UploadedFile) (db : DB) (img : PImage)
    (sc nc qr : String)
    (hdec : decode file.content = some img)
    (hsc : mh.generate_short_caption img = Except.ok sc)
    (hnc : mh.generate_normal_caption img = Except.ok nc)
    (hqr : mh.process_query_default img = Except.ok qr) :
    process_image_task decode mh file db =
      (some db.nextId,
       { nextId := db.nextId + 1,
         records := { id := db.nextId, image := file, short_caption := sc,
                      normal_caption := nc, query_text := none,
                      query_result := some qr } :: db.records }, 3) ∧
    process_image_task decode mh file
        { nextId := db.nextId + 1,
          records := { id := db.nextId, image := file, short_caption := sc,
                       normal_caption := nc, query_text := none,
                       query_result := some qr } :: db.records } =
      (some (db.nextId + 1),
       { nextId := db.nextId + 2,
         records := { id := db.nextId + 1, image := file, short_caption := sc,
                      normal_caption := nc, query_text := none,
                      query_result := some qr } ::
                    { id := db.nextId, image := file, short_caption := sc,
                      normal_caption := nc, query_text := none,
                      query_result := some qr } :: db.records }, 3) :=
  ⟨process_image_task_success decode mh file db img sc nc qr hdec hsc hnc hqr,
   process_image_task_success decode mh file _ img sc nc qr hdec hsc hnc hqr⟩

/-- Witness for the amended C2 theorem at the concrete decoder, handler
and image. -/
theorem second_submission_reinvokes_model_witness :
    process_image_task cDecode cMh cFile db0 =
      (some 0,
       { nextId := 1,
         records := [{ id := 0, image := cFile, short_caption := "a cat",
                       normal_caption := "a cat sitting on a mat",
                       query_text := none,
                       query_result := some "a domestic cat" }] }, 3) ∧
    process_image_task cDecode cMh cFile
        { nextId := 1,
          records := [{ id := 0, image := cFile, short_caption := "a cat",
                        normal_caption := "a cat sitting on a mat",
                        query_text := none,
                        query_result := some "a domestic cat" }] } =
      (some 1,
       { nextId := 2,
         records := [{ id := 1, image := cFile, short_caption := "a cat",
                       normal_caption := "a cat sitting on a mat",
                       query_text := none,
                       query_result := some "a domestic cat" },
                     { id := 0, image := cFile, short_caption := "a cat",
                       normal_caption := "a cat sitting on a mat",
                       query_text := none,
                       query_result := some "a domestic cat" }] }, 3) :=
  second_submission_reinvokes_model cDecode cMh cFile db0 { pixels := [1, 2, 3] }
    "a cat" "a cat sitting on a mat" "a domestic cat" rfl rfl rfl rfl

/-- Claim C3, counterexample: when the engine raises with message
"RuntimeError: CUDA out of memory" during query generation, the
exception is caught and the job finishes with a null result, but the
status endpoint reports the fixed message "Processing failed" — the
original exception message is not attached to the job's status. -/
theorem worker_failure_message_lost_cex :
    process_image_task cDecode cMhQueryRaising cFile db0 = (none, db0, 3) ∧
    check_job_status (run_job cDecode cMhQueryRaising qQueued db0 0).1
        (run_job cDecode cMhQueryRaising qQueued db0 0).2.1 0 =
      { status_code := 200,
        body := [("status", Json.str "failed"),
                 ("error", Json.str "Processing failed")] } ∧
    "Processing failed" ≠ "RuntimeError: CUDA out of memory" := by
  decide

/-- Claim C3, amended: an exception raised by any of the three
generation calls — short caption, normal caption or query — is caught
inside the worker task, which returns `None` instead of propagating it;
the executed job therefore finishes with a null result, and the status
endpoint reports it as failed, but with the generic message
"Processing failed"; the original exception message is only logged, not
attached to the job's status. -/
theorem worker_failure_reported_generic (decode : List Nat → Option PImage)
    (mh : ModelHandler) (q : Queue) (db : DB) (job_id : Nat) (job : Job)
    (img : PImage) (e : String)
    (hjob : find_job q job_id = some job)
    (hqueued : job.state = JobState.queued)
    (hdec : decode job.file.content = some img)
    (hraise : mh.generate_short_caption img = Except.error e ∨
              mh.generate_normal_caption img = Except.error e ∨
              mh.process_query_default img = Except.error e) :
    (process_image_task decode mh job.file db).1 = none ∧
    find_job (run_job decode mh q db job_id).1 job_id =
      some { job with state := JobState.finished none } ∧
    check_job_status (run_job decode mh q db job_id).1
        (run_job decode mh q db job_id).2.1 job_id =
      { status_code := 200,
        body := [("status", Json.str "failed"),
                 ("error", Json.str "Processing failed")] } := by
  have hnone : (process_image_task decode mh job.file db).1 = none := by
    cases hsc : mh.generate_short_caption img with
    | error e2 => simp [process_image_task, hdec, hsc]
    | ok sc =>
      cases hnc : mh.generate_normal_caption img with
      | error e2 => simp [process_image_task, hdec, hsc, hnc]
      | ok nc =>
        cases hqr : mh.process_query_default img with
        | error e2 => simp [process_image_task, hdec, hsc, hnc, hqr]
        | ok qr =>
          rcases hraise with h | h | h
          · rw [hsc] at h
            exact Except.noConfusion h
          · rw [hnc] at h
            exact Except.noConfusion h
          · rw [hqr] at h
            exact Except.noConfusion h
  have hrun : run_job decode mh q db job_id =
      (set_job_state q job_id
         (JobState.finished (process_image_task decode mh job.file db).1),
       (process_image_task decode mh job.file db).2.1,
       (process_image_task decode mh job.file db).2.2) := by
    simp [run_job, hjob, hqueued]
  have hfind := find_job_set_state q job_id
      (JobState.finished (process_image_task decode mh job.file db).1) job hjob
  rw [hnone] at hfind
  refine ⟨hnone, ?_, ?_⟩
  · rw [hrun, hnone]
    exact hfind
  · rw [hrun, hnone]
    simp [check_job_status, hfind]

/-- Witness for the amended C3 theorem: the handler raising at the
query site, on the concrete queued job; the exception is caught, the
job finishes with a null result, and the status is the generic
failure. -/
theorem worker_failure_reported_generic_witness :
    (process_image_task cDecode cMhQueryRaising cFile db0).1 = none ∧
    find_job (run_job cDecode cMhQueryRaising qQueued db0 0).1 0 =
      some { id := 0, file := cFile, timeout := 600,
             state := JobState.finished none } ∧
    check_job_status (run_job cDecode cMhQueryRaising qQueued db0 0).1
        (run_job cDecode cMhQueryRaising qQueued db0 0).2.1 0 =
      { status_code := 200,
        body := [("status", Json.str "failed"),
                 ("error", Json.str "Processing failed")] } :=
  worker_failure_reported_generic cDecode cMhQueryRaising qQueued db0 0
    { id := 0, file := cFile, timeout := 600, state := JobState.queued }
    { pixels := [1, 2, 3] } "RuntimeError: CUDA out of memory"
    rfl rfl rfl (Or.inr (Or.inr rfl))

/-- Claim C4 (confirmed): for every request with a file under the
`image` key, the submission endpoint makes zero Model Handle calls,
answers 200 with the job id and status "processing", and the queue now
holds a queued job carrying that file. -/
theorem valid_upload_enqueues_immediately (req : HttpRequest) (q : Queue)
    (file : UploadedFile) (h : flookup "image" req.files = some file) :
    (process_image req q).2.2 = 0 ∧
    (process_image req q).1 =
      { status_code := 200,
        body := [("job_id", Json.num q.nextJobId),
                 ("status", Json.str "processing"),
                 ("message", Json.str "Image uploaded and processing started")] } ∧
    find_job (process_image req q).2.1 q.nextJobId =
      some { id := q.nextJobId, file := file, timeout := 600,
             state := JobState.queued } := by
  refine ⟨?_, ?_, ?_⟩ <;> simp [process_image, h, find_job, List.find?]

/-- Witness for C4 at the concrete image upload. -/
theorem valid_upload_enqueues_immediately_witness :
    (process_image reqImage q0).2.2 = 0 ∧
    (process_image reqImage q0).1 =
      { status_code := 200,
        body := [("job_id", Json.num 0),
                 ("status", Json.str "processing"),
                 ("message", Json.str "Image uploaded and processing started")] } ∧
    find_job (process_image reqImage q0).2.1 0 =
      some { id := 0, file := cFile, timeout := 600, state := JobState.queued } :=
  valid_upload_enqueues_immediately reqImage q0 cFile rfl

/-- Claim C5, counterexample: a file whose content is not an image (it
does not decode) is not rejected at submission time — the endpoint
answers 200 and a job is enqueued, contradicting the claimed immediate
400 with no job created. -/
theorem non_image_upload_not_rejected_cex :
    cDecode cTextFile.content = none ∧
    (process_image reqText q0).1.status_code = 200 ∧
    (process_image reqText q0).2.1.jobs ≠ [] := by
  decide

/-- Claim C5, amended: a submission with no file under the `image` key
gets an immediate 400 with no job created and the queue untouched; but
file content is not validated at submission — any present file, image
content or not, is enqueued and answered 200, and a non-image file only
fails later inside the worker. -/
theorem missing_file_rejected_400 (req : HttpRequest) (q : Queue) :
    (flookup "image" req.files = none →
      process_image req q =
        ({ status_code := 400,
           body := [("error", Json.str "No image file provided")] }, q, 0)) ∧
    (∀ file, flookup "image" req.files = some file →
      (process_image req q).1.status_code = 200 ∧
      find_job (process_image req q).2.1 q.nextJobId =
        some { id := q.nextJobId, file := file, timeout := 600,
               state := JobState.queued }) := by
  constructor
  · intro h
    simp [process_image, h]
  · intro file h
    constructor
    · simp [process_image, h]
    · simp [process_image, h, find_job, List.find?]

/-- Witness for the amended C5 theorem: the empty request is rejected
with 400 and no job; the non-image upload is accepted and enqueued. -/
theorem missing_file_rejected_400_witness :
    process_image reqEmpty q0 =
      ({ status_code := 400,
         body := [("error", Json.str "No image file provided")] }, q0, 0) ∧
    (process_image reqText q0).1.status_code = 200 ∧
    find_job (process_image reqText q0).2.1 0 =
      some { id := 0, file := cTextFile, timeout := 600,
             state := JobState.queued } :=
  ⟨(missing_file_rejected_400 reqEmpty q0).1 rfl,
   (missing_file_rejected_400 reqText q0).2 cTextFile rfl⟩

/-- Claim C6 (confirmed): a status request for an unknown job id gets
HTTP 404 with a not-found error, and a finished job whose analysis
record is missing at fetch time gets a not-found error ("Analysis not
found"). -/
theorem unknown_job_and_missing_analysis_not_found (q : Queue) (db : DB)
    (job_id : Nat) :
    (find_job q job_id = none →
      check_job_status q db job_id =
        { status_code := 404,
          body := [("status", Json.str "failed"),
                   ("error", Json.str "Job not found")] }) ∧
    (∀ job aid, find_job q job_id = some job →
      job.state = JobState.finished (some aid) →
      find_analysis db aid = none →
      check_job_status q db job_id =
        { status_code := 200,
          body := [("status", Json.str "failed"),
                   ("error", Json.str "Analysis not found")] }) := by
  constructor
  · intro h
    simp [check_job_status, h]
  · intro job aid hjob hstate ha
    simp [check_job_status, hjob, hstate, ha]

/-- Witness for C6: an unknown id against the queue with one finished
job, and that job's missing analysis record. -/
theorem unknown_job_and_missing_analysis_not_found_witness :
    check_job_status qFin db0 99 =
      { status_code := 404,
        body := [("status", Json.str "failed"),
                 ("error", Json.str "Job not found")] } ∧
    check_job_status qFin db0 1 =
      { status_code := 200,
        body := [("status", Json.str "failed"),
                 ("error", Json.str "Analysis not found")] } :=
  ⟨(unknown_job_and_missing_analysis_not_found qFin db0 99).1 rfl,
   (unknown_job_and_missing_analysis_not_found qFin db0 1).2
     { id := 1, file := cFile, timeout := 600,
       state := JobState.finished (some 5) } 5 rfl rfl rfl⟩

/-- Claim C7 (confirmed): fetching the status of a completed job is a
pure projection of the persisted job state and record: any fetch — and
any repeated fetch against a state in which the job is still finished
with the same analysis id and the record is unchanged — returns the
identical payload of the completed form. -/
theorem completed_status_idempotent (q q2 : Queue) (db db2 : DB)
    (job_id : Nat) (job job2 : Job) (aid : Nat) (a : Analysis)
    (hjob : find_job q job_id = some job)
    (hstate : job.state = JobState.finished (some aid))
    (ha : find_analysis db aid = some a)
    (hjob2 : find_job q2 job_id = some job2)
    (hstate2 : job2.state = JobState.finished (some aid))
    (ha2 : find_analysis db2 aid = some a) :
    check_job_status q db job_id =
      { status_code := 200,
        body := [("status", Json.str "completed"),
                 ("image_url", Json.str (image_url a.image)),
                 ("short_caption", Json.str a.short_caption),
                 ("normal_caption", Json.str a.normal_caption),
                 ("query_result", json_of_opt a.query_result)] } ∧
    check_job_status q2 db2 job_id = check_job_status q db job_id := by
  constructor
  · simp [check_job_status, hjob, hstate, ha]
  · simp [check_job_status, hjob, hstate, ha, hjob2, hstate2, ha2]

/-- Witness for C7: two fetches of the concrete completed job return
the identical completed payload. -/
theorem completed_status_idempotent_witness :
    check_job_status qDone dbDone 3 =
      { status_code := 200,
        body := [("status", Json.str "completed"),
                 ("image_url", Json.str (image_url cAnalysis.image)),
                 ("short_caption", Json.str cAnalysis.short_caption),
                 ("normal_caption", Json.str cAnalysis.normal_caption),
                 ("query_result", json_of_opt cAnalysis.query_result)] } ∧
    check_job_status qDone dbDone 3 = check_job_status qDone dbDone 3 :=
  completed_status_idempotent qDone qDone dbDone dbDone 3
    { id := 3, file := cFile, timeout := 600, state := JobState.finished (some 0) }
    { id := 3, file := cFile, timeout := 600, state := JobState.finished (some 0) }
    0 cAnalysis rfl rfl rfl rfl rfl rfl

/-- Claim C8 (confirmed): one execution of the worker task creates at
most one analysis record — the store either is unchanged or gains
exactly one new record, whose id is the job's result, with all
pre-existing records untouched — and a job whose result is already set
(state finished) is never re-executed by the worker, so its result
never changes. -/
theorem at_most_one_record_per_execution (decode : List Nat → Option PImage)
    (mh : ModelHandler) (file : UploadedFile) (db : DB) (q : Queue)
    (job_id : Nat) :
    ((process_image_task decode mh file db).2.1.records = db.records ∨
     ∃ a : Analysis,
       (process_image_task decode mh file db).2.1.records = a :: db.records ∧
       a.id = db.nextId ∧
       (process_image_task decode mh file db).1 = some a.id) ∧
    (∀ job r, find_job q job_id = some job →
       job.state = JobState.finished r →
       run_job decode mh q db job_id = (q, db, 0)) := by
  constructor
  · rcases process_image_task_spec decode mh file db with ⟨-, hdb⟩ | ⟨sc, nc, qr, heq⟩
    · left
      rw [hdb]
    · right
      exact ⟨{ id := db.nextId, image := file, short_caption := sc,
               normal_caption := nc, query_text := none,
               query_result := some qr },
             by rw [heq], rfl, by rw [heq]⟩
  · intro job r hjob hstate
    simp [run_job, hjob, hstate]

/-- Witness for C8: the concrete successful execution, and the worker
step on a job that is already finished. -/
theorem at_most_one_record_per_execution_witness :
    ((process_image_task cDecode cMh cFile db0).2.1.records = db0.records ∨
     ∃ a : Analysis,
       (process_image_task cDecode cMh cFile db0).2.1.records = a :: db0.records ∧
       a.id = db0.nextId ∧
       (process_image_task cDecode cMh cFile db0).1 = some a.id) ∧
    run_job cDecode cMh qFin db0 1 = (qFin, db0, 0) :=
  ⟨(at_most_one_record_per_execution cDecode cMh cFile db0 qFin 1).1,
   (at_most_one_record_per_execution cDecode cMh cFile db0 qFin 1).2
     { id := 1, file := cFile, timeout := 600,
       state := JobState.finished (some 5) } (some 5) rfl rfl⟩

/-- Claim C9, counterexample: the submission endpoint's 400 response
carries no status field at all, and when the queue marks a job failed
the status endpoint returns the job's raw retained `exc_info` string —
an internal traceback — verbatim as the error message. -/
theorem internal_error_exposed_cex :
    flookup "status" (process_image reqEmpty q0).1.body = none ∧
    flookup "error" (check_job_status qFail db0 7).body =
      some (Json.str
        "Traceback (most recent call last): RuntimeError: CUDA out of memory") := by
  decide

/-- Claim C9, amended: every status-endpoint response is structured
JSON with a status field, but the claim's sanitization part fails: the
submission endpoint's 400 response has only an error field and no
status field, and for a job the queue marked failed the status endpoint
surfaces the raw `exc_info` string verbatim as the client-facing error
message. -/
theorem status_field_and_exc_info_passthrough (q : Queue) (db : DB)
    (job_id : Nat) (req : HttpRequest) (qu : Queue) :
    (∃ s, flookup "status" (check_job_status q db job_id).body =
       some (Json.str s)) ∧
    (∀ job e, find_job q job_id = some job →
       job.state = JobState.failed e →
       flookup "error" (check_job_status q db job_id).body =
         some (Json.str e)) ∧
    ((process_image req qu).1.status_code = 400 →
       flookup "status" (process_image req qu).1.body = none) := by
  refine ⟨?_, ?_, ?_⟩
  · cases hjob : find_job q job_id with
    | none => exact ⟨"failed", by simp [check_job_status, hjob, flookup]⟩
    | some job =>
      cases hstate : job.state with
      | queued =>
        exact ⟨"processing", by simp [check_job_status, hjob, hstate, flookup]⟩
      | failed e =>
        exact ⟨"failed", by simp [check_job_status, hjob, hstate, flookup]⟩
      | finished result =>
        cases result with
        | none =>
          exact ⟨"failed", by simp [check_job_status, hjob, hstate, flookup]⟩
        | some aid =>
          cases ha : find_analysis db aid with
          | none =>
            exact ⟨"failed", by simp [check_job_status, hjob, hstate, ha, flookup]⟩
          | some a =>
            exact ⟨"completed", by simp [check_job_status, hjob, hstate, ha, flookup]⟩
  · intro job e hjob hstate
    simp [check_job_status, hjob, hstate, flookup]
  · intro h400
    cases hfile : flookup "image" req.files with
    | none => simp [process_image, hfile, flookup]
    | some file => simp [process_image, hfile] at h400


/-- Witness for the amended C9 theorem at the concrete failed job and
the empty submission request. -/
theorem status_field_and_exc_info_passthrough_witness :
    (∃ s, flookup "status" (check_job_status qFail db0 7).body =
       some (Json.str s)) ∧
    flookup "error" (check_job_status qFail db0 7).body =
      some (Json.str
        "Traceback (most recent call last): RuntimeError: CUDA out of memory") ∧
    flookup "status" (process_image reqEmpty q0).1.body = none :=
  ⟨(status_field_and_exc_info_passthrough qFail db0 7 reqEmpty q0).1,
   (status_field_and_exc_info_passthrough qFail db0 7 reqEmpty q0).2.1
     { id := 7, file := cFile, timeout := 600,
       state := JobState.failed
         "Traceback (most recent call last): RuntimeError: CUDA out of memory" }
     "Traceback (most recent call last): RuntimeError: CUDA out of memory"
     rfl rfl,
   (status_field_and_exc_info_passthrough qFail db0 7 reqEmpty q0).2.2 rfl⟩

/-- Claim C10 (confirmed): the worker task is total with respect to
exceptions — for every decoder, handler, file and store it returns
either the id of the record it created or `None` — so the executed job
always finishes as a success in the queue, carrying that value as its
result; when the value is `None` the store is untouched and the status
endpoint distinguishes the failure only through the null result,
reporting "Processing failed". -/
theorem task_total_null_result_reported (decode : List Nat → Option PImage)
    (mh : ModelHandler) (q : Queue) (db : DB) (job_id : Nat) (job : Job)
    (hjob : find_job q job_id = some job)
    (hqueued : job.state = JobState.queued) :
    ∃ r : Option Nat,
      r = (process_image_task decode mh job.file db).1 ∧
      find_job (run_job decode mh q db job_id).1 job_id =
        some { job with state := JobState.finished r } ∧
      (∀ i, r = some i →
        ∃ a, find_analysis (run_job decode mh q db job_id).2.1 i = some a) ∧
      (r = none →
        (run_job decode mh q db job_id).2.1 = db ∧
        check_job_status (run_job decode mh q db job_id).1
            (run_job decode mh q db job_id).2.1 job_id =
          { status_code := 200,
            body := [("status", Json.str "failed"),
                     ("error", Json.str "Processing failed")] }) := by
  have hrun : run_job decode mh q db job_id =
      (set_job_state q job_id
         (JobState.finished (process_image_task decode mh job.file db).1),
       (process_image_task decode mh job.file db).2.1,
       (process_image_task decode mh job.file db).2.2) := by
    simp [run_job, hjob, hqueued]
  refine ⟨(process_image_task decode mh job.file db).1, rfl, ?_, ?_, ?_⟩
  · rw [hrun]
    exact find_job_set_state q job_id _ job hjob
  · intro i hi
    rcases process_image_task_spec decode mh job.file db with ⟨h1, -⟩ | ⟨sc, nc, qr, heq⟩
    · rw [h1] at hi
      cases hi
    · rw [heq] at hi
      simp only [Option.some.injEq] at hi
      rw [hrun, heq, ← hi]
      refine ⟨{ id := db.nextId, image := job.file, short_caption := sc,
                normal_caption := nc, query_text := none,
                query_result := some qr }, ?_⟩
      simp [find_analysis]
  · intro h0
    have hdb : (process_image_task decode mh job.file db).2.1 = db := by
      rcases process_image_task_spec decode mh job.file db with ⟨-, h2⟩ | ⟨sc, nc, qr, heq⟩
      · exact h2
      · rw [heq] at h0
        simp at h0
    have hfind := find_job_set_state q job_id
      (JobState.finished (process_image_task decode mh job.file db).1) job hjob
    rw [h0] at hfind
    constructor
    · rw [hrun]
      exact hdb
    · rw [hrun, h0]
      simp [check_job_status, hfind]

/-- Witness for C10: the raising handler makes the concrete queued job
finish with a null result, the store stays empty, and the status
endpoint reports the generic failure. -/
theorem task_total_null_result_reported_witness :
    ∃ r : Option Nat,
      r = (process_image_task cDecode cMhRaising cFile db0).1 ∧
      find_job (run_job cDecode cMhRaising qQueued db0 0).1 0 =
        some { id := 0, file := cFile, timeout := 600,
               state := JobState.finished r } ∧
      (∀ i, r = some i →
        ∃ a, find_analysis (run_job cDecode cMhRaising qQueued db0 0).2.1 i = some a) ∧
      (r = none →
        (run_job cDecode cMhRaising qQueued db0 0).2.1 = db0 ∧
        check_job_status (run_job cDecode cMhRaising qQueued db0 0).1
            (run_job cDecode cMhRaising qQueued db0 0).2.1 0 =
          { status_code := 200,
            body := [("status", Json.str "failed"),
                     ("error", Json.str "Processing failed")] }) :=
  task_total_null_result_reported cDecode cMhRaising qQueued db0 0
    { id := 0, file := cFile, timeout := 600, state := JobState.queued } rfl rfl

end FYP
